import Mathlib

/-!
# SSD1306 graphics driver core: configuration, opcodes and buffer geometry

A shallow embedding of `ssd1306_gfx_config.h` and `ssd1306_gfx.h`.

* Preprocessor constants become `Nat`/`Int` constants with the source's names.
* The two `#if ... #error` configuration assertions become `config_assertions`, a
  function of the two configuration macros returning the diagnostics that fire.
* `struct _ssd1306_i2c_t` and `struct _ssd1306_mono_font_t` become structures; an
  `unsigned char` is a `Fin 256`, and 8-bit stores are written with an explicit `% 256`.
-/

namespace SSD1306

/-! ## Basic types of `ssd1306_gfx.h` -/

/-- The `typedef unsigned char uint8_t` of the header: a value in `0 .. 255`. -/
abbrev uint8_t := Fin 256

/-! ## `ssd1306_gfx_config.h` -/

/-- Width in pixels of the screen (`#define SSD1306_CONF_LCDWIDTH 128`). -/
def SSD1306_CONF_LCDWIDTH : Int := 128

/-- Height in pixels of the screen (`#define SSD1306_CONF_LCDHEIGHT 64`). -/
def SSD1306_CONF_LCDHEIGHT : Int := 64

/-! ## Opcodes of `ssd1306_gfx.h` -/

def SSD1306_CONTROLBYTE : Nat := 0x00
def SSD1306_DATABYTE : Nat := 0x40

def SSD1306_BRIGHTNESS : Nat := 0x81
def SSD1306_DISPLAYALLON_RESUME : Nat := 0xA4
def SSD1306_DISPLAYALLON : Nat := 0xA5
def SSD1306_NORMALDISPLAY : Nat := 0xA6
def SSD1306_INVERTDISPLAY : Nat := 0xA7
def SSD1306_DISPLAYOFF : Nat := 0xAE
def SSD1306_DISPLAYON : Nat := 0xAF
def SSD1306_SETDISPLAYOFFSET : Nat := 0xD3
def SSD1306_MEMSCANMODE : Nat := 0xDA
def SSD1306_SETVCOMDETECT : Nat := 0xDB
def SSD1306_SETDISPLAYCLOCKDIV : Nat := 0xD5
def SSD1306_SETPRECHARGE : Nat := 0xD9
def SSD1306_SETMULTIPLEX : Nat := 0xA8
def SSD1306_SETLOWCOLUMN : Nat := 0x00
def SSD1306_SETHIGHCOLUMN : Nat := 0x10

/-- The function-like macro `SSD1306_SETSTARTLINE(ROW_N)`, `(0x40 + ROW_N)`. -/
def SSD1306_SETSTARTLINE (ROW_N : Nat) : Nat := 0x40 + ROW_N

def SSD1306_MEMADDRESSINGMODE : Nat := 0x20
def SSD1306_COLUMNADDR : Nat := 0x21
def SSD1306_PAGEADDR : Nat := 0x22

def SSD1306_ROWLEFTTORIGHT : Nat := 0xA1
def SSD1306_ROWRIGHTTOLEFT : Nat := 0xA0

def SSD1306_COLUPTODOWN : Nat := 0xC8
def SSD1306_COLDOWNTOUP : Nat := 0xc0

def SSD1306_DISABLESCROLL : Nat := 0x2E
def SSD1306_CHARGEPUMP : Nat := 0x8D
def SSD1306_EXTERNALVCC : Nat := 0x01
def SSD1306_SWITCHCAPVCC : Nat := 0x02

/-- The fixed command opcodes of the header (lines 45-74, the parameterised
`SSD1306_SETSTARTLINE` apart), in the order they are defined. -/
def fixed_opcodes : List Nat :=
  [ SSD1306_BRIGHTNESS, SSD1306_DISPLAYALLON_RESUME, SSD1306_DISPLAYALLON,
    SSD1306_NORMALDISPLAY, SSD1306_INVERTDISPLAY, SSD1306_DISPLAYOFF, SSD1306_DISPLAYON,
    SSD1306_SETDISPLAYOFFSET, SSD1306_MEMSCANMODE, SSD1306_SETVCOMDETECT,
    SSD1306_SETDISPLAYCLOCKDIV, SSD1306_SETPRECHARGE, SSD1306_SETMULTIPLEX,
    SSD1306_SETLOWCOLUMN, SSD1306_SETHIGHCOLUMN, SSD1306_MEMADDRESSINGMODE,
    SSD1306_COLUMNADDR, SSD1306_PAGEADDR, SSD1306_ROWLEFTTORIGHT, SSD1306_ROWRIGHTTOLEFT,
    SSD1306_COLUPTODOWN, SSD1306_COLDOWNTOUP, SSD1306_DISABLESCROLL, SSD1306_CHARGEPUMP ]

/-! ## Configuration assertions -/

/-- The two `#error` diagnostics of the configuration assertions. -/
inductive ConfigAssertion where
  /-- Message `SSD1306_CONF_LCDHEIGHT can be 32 or 64 pixels height.` -/
  | wrong_height
  /-- Message `SSD1306_CONF_LCDWIDTH is not 128.` -/
  | wrong_width
  deriving DecidableEq, Repr

/-- The configuration assertions, as a function of the values of the macros
`SSD1306_CONF_LCDWIDTH` and `SSD1306_CONF_LCDHEIGHT`: the diagnostics raised, in source
order. The first `#if` tests the height, the second the width. -/
def config_assertions (lcdwidth lcdheight : Int) : List ConfigAssertion :=
  (if (lcdheight ≠ 32) ∧ (lcdheight ≠ 64) then [ConfigAssertion.wrong_height] else []) ++
  (if lcdwidth ≠ 128 then [ConfigAssertion.wrong_width] else [])

/-- A configuration is accepted when no `#error` fires. -/
def config_accepted (lcdwidth lcdheight : Int) : Bool :=
  (config_assertions lcdwidth lcdheight).isEmpty

/-! ## Structures -/

/-- The array bound of `buffer`, `SSD1306_CONF_LCDWIDTH * SSD1306_CONF_LCDHEIGHT / 8`: the
product first, then C's truncating division. -/
def buffer_decl_len (lcdwidth lcdheight : Int) : Int :=
  Int.tdiv (lcdwidth * lcdheight) 8

/-- Base handler for a SSD1306 display (`struct _ssd1306_i2c_t`), for given values of the
configuration macros. The fixed-size array `buffer` is a list whose length is the array
bound. -/
structure ssd1306_i2c_t (lcdwidth lcdheight : Int) where
  address : uint8_t
  invert_display : uint8_t
  height : Int
  width : Int
  row_byteshift : Int
  buffer_size : Nat
  buffer : List uint8_t
  buffer_bound : (buffer.length : Int) = buffer_decl_len lcdwidth lcdheight

/-- Base structure of generated monospace fonts (`struct _ssd1306_mono_font_t`). The
pointers are the byte sequences they point to; `skip_data` may be null. -/
structure ssd1306_mono_font_t where
  font_data : List uint8_t
  skip_data : Option (List uint8_t)
  font_rows : uint8_t
  font_width : uint8_t
  bytes_per_character : uint8_t

/-- A handler of the shipped 128x64 configuration with every field zero. -/
def zeroed_handler : ssd1306_i2c_t 128 64 where
  address := 0
  invert_display := 0
  height := 0
  width := 0
  row_byteshift := 0
  buffer_size := 0
  buffer := List.replicate 1024 0
  buffer_bound := by rw [List.length_replicate]; decide

/-- A font value with 16 pages of 16 columns and a zero `bytes_per_character`. -/
def font_16x16 : ssd1306_mono_font_t where
  font_data := []
  skip_data := none
  font_rows := 16
  font_width := 16
  bytes_per_character := 0

/-- A dense font value with one page of five columns per glyph, five bytes per character. -/
def font_5x1 : ssd1306_mono_font_t where
  font_data := []
  skip_data := none
  font_rows := 1
  font_width := 5
  bytes_per_character := 5

/-! ## Display geometry and pixel addressing

The header declares the handler but none of its operations; the derived field
`row_byteshift`, the addressing of a pixel and the operations on the buffer are taken
from the design document. -/

/-- Modelled from the spec: the value of the handler field `row_byteshift`, whose
computation is not in the headers. It is derived as `height / 8`, the number of bytes per
column-stripe. -/
def row_byteshift (height : Int) : Int := height / 8

/-- Modelled from the spec: the page of a pixel row, `page = y / 8`; the addressing code is
not in the headers. -/
def pixel_page (y : Int) : Int := y / 8

/-- Modelled from the spec: the byte index of pixel `(x, y)`, `page * width + column`; the
addressing code is not in the headers. -/
def pixel_index (width x y : Int) : Int := pixel_page y * width + x

/-- Modelled from the spec: the bit position of pixel `(x, y)` within its byte, `y % 8`
(bit 0 is the topmost row of the page); the addressing code is not in the headers. -/
def pixel_bit (y : Int) : Int := y % 8

/-- Modelled from the spec: the error taxonomy of the driver core, absent from the
headers. -/
inductive DriverError where
  | ConfigError
  | OutOfBounds
  | IndexOutOfRange
  | InvalidWindow
  | TransportError
  deriving DecidableEq, Repr

/-- Modelled from the spec: the PixelBuffer, absent from the headers as a type of its own:
the panel geometry and an ordered sequence of bytes of length `width * height / 8`
(the bound of the handler's `buffer` array). -/
structure PixelBuffer where
  width : Int
  height : Int
  bytes : List uint8_t
  size_eq : (bytes.length : Int) = buffer_decl_len width height

/-- Modelled from the spec: `raw_bytes()`, a read-only view of the full buffer in
page-major, column-minor order; the function is not in the headers. -/
def raw_bytes (buf : PixelBuffer) : List uint8_t := buf.bytes

/-- Bit `bit` of byte `index` of a byte sequence (0 past the end of the sequence). -/
def bit_at (bytes : List uint8_t) (index bit : Nat) : Bool :=
  (bytes.getD index 0).val.testBit bit

/-- OR of a byte with the mask `1 << bit`, stored back into 8 bits. -/
def set_bit (b : uint8_t) (bit : Nat) : uint8_t :=
  ⟨(b.val ||| (1 <<< bit)) % 256, Nat.mod_lt _ (by decide)⟩

/-- AND of a byte with the complement of the mask `1 << bit`, stored back into 8 bits; on
the 8 bits of a byte the complement of the mask is `0xFF ^ (1 << bit)`. -/
def clear_bit (b : uint8_t) (bit : Nat) : uint8_t :=
  ⟨(b.val &&& (255 ^^^ (1 <<< bit))) % 256, Nat.mod_lt _ (by decide)⟩

/-- Modelled from the spec: `set_pixel(x, y, on)`, absent from the headers. It fails with
`OutOfBounds` unless `0 ≤ x < width` and `0 ≤ y < height`; otherwise it is a
read-modify-write of the one byte at `pixel_index`, OR to set and AND-with-complement to
clear, at bit `pixel_bit`. -/
def set_pixel (buf : PixelBuffer) (x y : Int) (is_on : Bool) : Except DriverError PixelBuffer :=
  if 0 ≤ x ∧ x < buf.width ∧ 0 ≤ y ∧ y < buf.height then
    let index := (pixel_index buf.width x y).toNat
    let bit := (pixel_bit y).toNat
    let old := buf.bytes.getD index 0
    let new := if is_on then set_bit old bit else clear_bit old bit
    Except.ok
      { width := buf.width
        height := buf.height
        bytes := buf.bytes.set index new
        size_eq := by rw [List.length_set]; exact buf.size_eq }
  else
    Except.error DriverError.OutOfBounds

/-- The all-zero buffer of a 128 x 64 panel. -/
def blank_128x64 : PixelBuffer where
  width := 128
  height := 64
  bytes := List.replicate 1024 0
  size_eq := by rw [List.length_replicate]; decide

/-! ## Wire protocol -/

/-- Modelled from the spec: one controller transaction `[control_byte][payload...]`, absent
from the headers. -/
structure Transaction where
  control : Nat
  payload : List Nat
  deriving DecidableEq, Repr

/-- Modelled from the spec: `SetWindow(col_start, col_end, page_start, page_end)`, absent
from the headers. It fails with `InvalidWindow` unless
`0 ≤ col_start ≤ col_end < width` and `0 ≤ page_start ≤ page_end < height / 8`, before any
byte is emitted; otherwise it emits, under the command control byte, the column-address
and the page-address commands, one opcode byte and two argument bytes each. -/
def SetWindow (width height col_start col_end page_start page_end : Int) :
    Except DriverError (List Transaction) :=
  if 0 ≤ col_start ∧ col_start ≤ col_end ∧ col_end < width ∧
      0 ≤ page_start ∧ page_start ≤ page_end ∧ page_end < height / 8 then
    Except.ok
      [ { control := SSD1306_CONTROLBYTE
          payload := [ SSD1306_COLUMNADDR, col_start.toNat, col_end.toNat,
                       SSD1306_PAGEADDR, page_start.toNat, page_end.toNat ] } ]
  else
    Except.error DriverError.InvalidWindow

/-- Modelled from the spec: `Flush(buffer)`, absent from the headers. It sets the window to
the full buffer extent, then emits the buffer's raw bytes under the data control byte, in
the order of `raw_bytes()`. -/
def Flush (buf : PixelBuffer) : Except DriverError (List Transaction) :=
  match SetWindow buf.width buf.height 0 (buf.width - 1) 0 (buf.height / 8 - 1) with
  | Except.error e => Except.error e
  | Except.ok window =>
    Except.ok (window ++
      [ { control := SSD1306_DATABYTE, payload := (raw_bytes buf).map Fin.val } ])

/-! ## Configuration and geometry -/

theorem config_accepted_iff (w h : Int) :
    config_accepted w h = true ↔ w = 128 ∧ (h = 32 ∨ h = 64) := by
  unfold config_accepted config_assertions
  by_cases hw : w = 128 <;> by_cases h32 : h = 32 <;> by_cases h64 : h = 64 <;>
    simp [hw, h32, h64]

/-- C1: the configuration check accepts `(width, height)` if and only if `width = 128` and
`height` is 32 or 64; in particular `(128, 48)` is rejected and the shipped configuration
`(SSD1306_CONF_LCDWIDTH, SSD1306_CONF_LCDHEIGHT) = (128, 64)` is accepted. -/
theorem config_check_accepts_iff :
    (∀ w h : Int, config_accepted w h = true ↔ w = 128 ∧ (h = 32 ∨ h = 64)) ∧
    (∀ w h : Int, config_accepted w h = false ↔ ¬ (w = 128 ∧ (h = 32 ∨ h = 64))) ∧
    config_accepted 128 48 = false ∧
    config_assertions 128 48 = [ConfigAssertion.wrong_height] ∧
    SSD1306_CONF_LCDWIDTH = 128 ∧ SSD1306_CONF_LCDHEIGHT = 64 ∧
    config_accepted SSD1306_CONF_LCDWIDTH SSD1306_CONF_LCDHEIGHT = true := by
  refine ⟨config_accepted_iff, ?_, by decide, by decide, rfl, rfl, by decide⟩
  intro w h
  rw [← config_accepted_iff, Bool.not_eq_true]

/-- C2: for every accepted configuration, the buffer of any display handler has exactly
`width * height / 8` bytes, the division is exact (one bit per pixel), and the length is
512 for height 32 and 1024 for height 64. -/
theorem buffer_length_exact (w h : Int) (hc : config_accepted w h = true)
    (d : ssd1306_i2c_t w h) :
    (d.buffer.length : Int) = w * h / 8 ∧
    (w * h) % 8 = 0 ∧
    (d.buffer.length : Int) * 8 = w * h ∧
    (h = 32 → d.buffer.length = 512) ∧
    (h = 64 → d.buffer.length = 1024) ∧
    (d.buffer.length = 512 ∨ d.buffer.length = 1024) ∧
    buffer_decl_len SSD1306_CONF_LCDWIDTH SSD1306_CONF_LCDHEIGHT = 1024 := by
  have hb := d.buffer_bound
  obtain ⟨rfl, rfl | rfl⟩ := (config_accepted_iff w h).1 hc
  · have h512 : (d.buffer.length : Int) = 512 := by rw [hb]; decide
    have hn : d.buffer.length = 512 := by exact_mod_cast h512
    refine ⟨by rw [h512]; decide, by decide, by rw [h512]; decide, fun _ => hn, ?_, Or.inl hn,
      by decide⟩
    intro h; exact absurd h (by decide)
  · have h1024 : (d.buffer.length : Int) = 1024 := by rw [hb]; decide
    have hn : d.buffer.length = 1024 := by exact_mod_cast h1024
    refine ⟨by rw [h1024]; decide, by decide, by rw [h1024]; decide, ?_, fun _ => hn, Or.inr hn,
      by decide⟩
    intro h; exact absurd h (by decide)

/-- The shipped configuration is accepted and the zeroed handler's buffer has 1024 bytes. -/
theorem buffer_length_exact_witness :
    config_accepted 128 64 = true ∧
    ((zeroed_handler.buffer.length : Int) = 128 * 64 / 8 ∧
    ((128 : Int) * 64) % 8 = 0 ∧
    (zeroed_handler.buffer.length : Int) * 8 = 128 * 64 ∧
    ((64 : Int) = 32 → zeroed_handler.buffer.length = 512) ∧
    ((64 : Int) = 64 → zeroed_handler.buffer.length = 1024) ∧
    (zeroed_handler.buffer.length = 512 ∨ zeroed_handler.buffer.length = 1024) ∧
    buffer_decl_len SSD1306_CONF_LCDWIDTH SSD1306_CONF_LCDHEIGHT = 1024) :=
  ⟨by decide, buffer_length_exact 128 64 (by decide) zeroed_handler⟩

/-- C3: the command control byte is 0x00, the data control byte is 0x40, they differ, and
so a transaction starting with the one is never a transaction starting with the other. -/
theorem control_bytes_distinct :
    SSD1306_CONTROLBYTE = 0x00 ∧ SSD1306_DATABYTE = 0x40 ∧
    SSD1306_CONTROLBYTE ≠ SSD1306_DATABYTE ∧
    (∀ p q : List Nat, SSD1306_CONTROLBYTE :: p ≠ SSD1306_DATABYTE :: q) := by
  refine ⟨rfl, rfl, by decide, ?_⟩
  intro p q h
  injection h with h1 _
  exact absurd h1 (by decide)

/-- C4: the opcode constants have the values of the SSD1306 command table. -/
theorem opcode_values :
    SSD1306_BRIGHTNESS = 0x81 ∧ SSD1306_COLUMNADDR = 0x21 ∧ SSD1306_PAGEADDR = 0x22 ∧
    SSD1306_MEMADDRESSINGMODE = 0x20 ∧ SSD1306_DISPLAYOFF = 0xAE ∧
    SSD1306_DISPLAYON = 0xAF ∧ SSD1306_NORMALDISPLAY = 0xA6 ∧
    SSD1306_INVERTDISPLAY = 0xA7 ∧ SSD1306_DISPLAYALLON_RESUME = 0xA4 ∧
    SSD1306_SETMULTIPLEX = 0xA8 ∧ SSD1306_SETDISPLAYOFFSET = 0xD3 ∧
    SSD1306_SETDISPLAYCLOCKDIV = 0xD5 ∧ SSD1306_SETPRECHARGE = 0xD9 ∧
    SSD1306_SETVCOMDETECT = 0xDB ∧ SSD1306_CHARGEPUMP = 0x8D ∧
    SSD1306_DISABLESCROLL = 0x2E := by
  decide

/-- C5: for every accepted configuration, `height` is a multiple of 8, `row_byteshift`
is exactly `height / 8` (4 for height 32, 8 for height 64), the pages of the rows
`0 .. height - 1` are exactly `0 .. row_byteshift - 1`, and `width * row_byteshift` is the
buffer length. -/
theorem row_byteshift_exact (w h : Int) (hc : config_accepted w h = true) :
    h % 8 = 0 ∧
    row_byteshift h * 8 = h ∧
    (h = 32 → row_byteshift h = 4) ∧
    (h = 64 → row_byteshift h = 8) ∧
    (∀ p : Int, (∃ y : Int, 0 ≤ y ∧ y < h ∧ pixel_page y = p) ↔
      (0 ≤ p ∧ p < row_byteshift h)) ∧
    w * row_byteshift h = buffer_decl_len w h := by
  obtain ⟨rfl, rfl | rfl⟩ := (config_accepted_iff w h).1 hc
  · refine ⟨by decide, by decide, fun _ => by decide, fun h => absurd h (by decide), ?_,
      by decide⟩
    intro p
    have hr : row_byteshift 32 = 4 := by decide
    rw [hr]
    unfold pixel_page
    constructor
    · rintro ⟨y, h0, h1, rfl⟩; omega
    · rintro ⟨h0, h1⟩; exact ⟨8 * p, by omega, by omega, by omega⟩
  · refine ⟨by decide, by decide, fun h => absurd h (by decide), fun _ => by decide, ?_,
      by decide⟩
    intro p
    have hr : row_byteshift 64 = 8 := by decide
    rw [hr]
    unfold pixel_page
    constructor
    · rintro ⟨y, h0, h1, rfl⟩; omega
    · rintro ⟨h0, h1⟩; exact ⟨8 * p, by omega, by omega, by omega⟩

/-- The shipped configuration has 8 pages, and 128 * 8 is its buffer length. -/
theorem row_byteshift_exact_witness :
    config_accepted 128 64 = true ∧
    ((64 : Int) % 8 = 0 ∧
    row_byteshift 64 * 8 = 64 ∧
    ((64 : Int) = 32 → row_byteshift 64 = 4) ∧
    ((64 : Int) = 64 → row_byteshift 64 = 8) ∧
    (∀ p : Int, (∃ y : Int, 0 ≤ y ∧ y < 64 ∧ pixel_page y = p) ↔
      (0 ≤ p ∧ p < row_byteshift 64)) ∧
    128 * row_byteshift 64 = buffer_decl_len 128 64) :=
  ⟨by decide, row_byteshift_exact 128 64 (by decide)⟩


/-- C8: for every accepted configuration the addressing
`(x, y) ↦ (pixel_index width x y, pixel_bit y)` is a bijection between the pixels
`[0, width) × [0, height)` and the bit positions of the declared buffer. -/
theorem pixel_addressing_bijective (w h : Int) (hc : config_accepted w h = true) :
    (∀ x y : Int, 0 ≤ x → x < w → 0 ≤ y → y < h →
      0 ≤ pixel_index w x y ∧ pixel_index w x y < buffer_decl_len w h ∧
      0 ≤ pixel_bit y ∧ pixel_bit y < 8) ∧
    (∀ x y x' y' : Int, 0 ≤ x → x < w → 0 ≤ y → y < h →
      0 ≤ x' → x' < w → 0 ≤ y' → y' < h →
      pixel_index w x y = pixel_index w x' y' → pixel_bit y = pixel_bit y' →
      x = x' ∧ y = y') ∧
    (∀ i b : Int, 0 ≤ i → i < buffer_decl_len w h → 0 ≤ b → b < 8 →
      ∃ x y : Int, 0 ≤ x ∧ x < w ∧ 0 ≤ y ∧ y < h ∧
        pixel_index w x y = i ∧ pixel_bit y = b) := by
  obtain ⟨rfl, rfl | rfl⟩ := (config_accepted_iff w h).1 hc
  · have hl : buffer_decl_len 128 32 = 512 := by decide
    rw [hl]
    unfold pixel_index pixel_page pixel_bit
    refine ⟨?_, ?_, ?_⟩
    · intro x y hx0 hx1 hy0 hy1; omega
    · intro x y x' y' hx0 hx1 hy0 hy1 hx0' hx1' hy0' hy1' hi hb; omega
    · intro i b hi0 hi1 hb0 hb1
      exact ⟨i % 128, 8 * (i / 128) + b, by omega, by omega, by omega, by omega, by omega,
        by omega⟩
  · have hl : buffer_decl_len 128 64 = 1024 := by decide
    rw [hl]
    unfold pixel_index pixel_page pixel_bit
    refine ⟨?_, ?_, ?_⟩
    · intro x y hx0 hx1 hy0 hy1; omega
    · intro x y x' y' hx0 hx1 hy0 hy1 hx0' hx1' hy0' hy1' hi hb; omega
    · intro i b hi0 hi1 hb0 hb1
      exact ⟨i % 128, 8 * (i / 128) + b, by omega, by omega, by omega, by omega, by omega,
        by omega⟩

/-- The addressing of the shipped 128 x 64 configuration is a bijection onto the bits of
its 1024 bytes. -/
theorem pixel_addressing_bijective_witness :
    config_accepted 128 64 = true ∧
    ((∀ x y : Int, 0 ≤ x → x < 128 → 0 ≤ y → y < 64 →
      0 ≤ pixel_index 128 x y ∧ pixel_index 128 x y < buffer_decl_len 128 64 ∧
      0 ≤ pixel_bit y ∧ pixel_bit y < 8) ∧
    (∀ x y x' y' : Int, 0 ≤ x → x < 128 → 0 ≤ y → y < 64 →
      0 ≤ x' → x' < 128 → 0 ≤ y' → y' < 64 →
      pixel_index 128 x y = pixel_index 128 x' y' → pixel_bit y = pixel_bit y' →
      x = x' ∧ y = y') ∧
    (∀ i b : Int, 0 ≤ i → i < buffer_decl_len 128 64 → 0 ≤ b → b < 8 →
      ∃ x y : Int, 0 ≤ x ∧ x < 128 ∧ 0 ≤ y ∧ y < 64 ∧
        pixel_index 128 x y = i ∧ pixel_bit y = b)) :=
  ⟨by decide, pixel_addressing_bijective 128 64 (by decide)⟩

/-- C9, refuted: a font value of 16 pages by 16 columns has the product 256, which no
8-bit `bytes_per_character` equals; stored into the field the product reads 0. -/
theorem bytes_per_character_ne_product :
    font_16x16.font_rows.val = 16 ∧ font_16x16.font_width.val = 16 ∧
    font_16x16.bytes_per_character.val = (16 * 16) % 256 ∧
    font_16x16.bytes_per_character.val ≠
      font_16x16.font_rows.val * font_16x16.font_width.val := by
  decide

/-- C9, amended: for every font value whose `bytes_per_character` holds
`font_rows * font_width` as an 8-bit store keeps it (the product modulo 256), the field
equals the exact product if and only if the product is at most 255. -/
theorem bytes_per_character_exact_iff (f : ssd1306_mono_font_t)
    (hs : f.bytes_per_character.val = (f.font_rows.val * f.font_width.val) % 256) :
    f.bytes_per_character.val = f.font_rows.val * f.font_width.val ↔
      f.font_rows.val * f.font_width.val ≤ 255 := by
  have hlt : f.bytes_per_character.val < 256 := f.bytes_per_character.isLt
  constructor
  · intro h; omega
  · intro h; rw [hs]; exact Nat.mod_eq_of_lt (by omega)

/-- The 5 x 1 font stores 5, the exact product, and 5 is below 256. -/
theorem bytes_per_character_exact_iff_witness :
    font_5x1.bytes_per_character.val = (font_5x1.font_rows.val * font_5x1.font_width.val) % 256 ∧
    (font_5x1.bytes_per_character.val = font_5x1.font_rows.val * font_5x1.font_width.val ↔
      font_5x1.font_rows.val * font_5x1.font_width.val ≤ 255) :=
  ⟨by decide, bytes_per_character_exact_iff font_5x1 (by decide)⟩

/-- C10: `SSD1306_SETSTARTLINE n` for `0 ≤ n ≤ 63` lies in `0x40 .. 0x7F`, fits in one
byte, and is injective in `n`; the fixed command opcodes are the listed 24 values, are
pairwise distinct, and none lies in `0x40 .. 0x7F`, so none is a start-line opcode. -/
theorem opcode_encoding_unambiguous :
    (∀ n : Nat, n ≤ 63 →
      SSD1306_SETSTARTLINE n = 0x40 + n ∧ 0x40 ≤ SSD1306_SETSTARTLINE n ∧
      SSD1306_SETSTARTLINE n ≤ 0x7F ∧ SSD1306_SETSTARTLINE n < 256) ∧
    (∀ n m : Nat, n ≤ 63 → m ≤ 63 → n ≠ m →
      SSD1306_SETSTARTLINE n ≠ SSD1306_SETSTARTLINE m) ∧
    fixed_opcodes =
      [0x81, 0xA4, 0xA5, 0xA6, 0xA7, 0xAE, 0xAF, 0xD3, 0xDA, 0xDB, 0xD5, 0xD9, 0xA8,
       0x00, 0x10, 0x20, 0x21, 0x22, 0xA1, 0xA0, 0xC8, 0xC0, 0x2E, 0x8D] ∧
    fixed_opcodes.Nodup ∧
    (∀ c ∈ fixed_opcodes, ¬ (0x40 ≤ c ∧ c ≤ 0x7F)) ∧
    (∀ n : Nat, n ≤ 63 → SSD1306_SETSTARTLINE n ∉ fixed_opcodes) := by
  have hrange : ∀ c ∈ fixed_opcodes, ¬ (0x40 ≤ c ∧ c ≤ 0x7F) := by decide
  refine ⟨?_, ?_, by decide, by decide, hrange, ?_⟩
  · intro n hn; unfold SSD1306_SETSTARTLINE; omega
  · intro n m _ _ hnm; unfold SSD1306_SETSTARTLINE; omega
  · intro n hn hmem
    have := hrange _ hmem
    unfold SSD1306_SETSTARTLINE at this
    omega

/-! ## Bits of a byte after a set or a clear -/

theorem mask_lt (k : Nat) (hk : k < 8) : 1 <<< k < 2 ^ 8 := by
  rw [Nat.one_shiftLeft]
  exact Nat.pow_lt_pow_right (by decide) hk

theorem testBit_set_bit (b : uint8_t) (k j : Nat) (hk : k < 8) :
    (set_bit b k).val.testBit j = (b.val.testBit j || decide (k = j)) := by
  have hlt : b.val ||| (1 <<< k) < 256 := Nat.or_lt_two_pow (n := 8) b.isLt (mask_lt k hk)
  show ((b.val ||| (1 <<< k)) % 256).testBit j = _
  rw [Nat.mod_eq_of_lt hlt, Nat.testBit_or, Nat.one_shiftLeft, Nat.testBit_two_pow]

theorem testBit_clear_bit (b : uint8_t) (k j : Nat) :
    (clear_bit b k).val.testBit j = (b.val.testBit j && !decide (k = j)) := by
  have hle : b.val &&& (255 ^^^ (1 <<< k)) ≤ b.val := Nat.and_le_left
  have hlt : b.val &&& (255 ^^^ (1 <<< k)) < 256 := Nat.lt_of_le_of_lt hle b.isLt
  show ((b.val &&& (255 ^^^ (1 <<< k))) % 256).testBit j = _
  rw [Nat.mod_eq_of_lt hlt, Nat.testBit_and, Nat.testBit_xor, Nat.one_shiftLeft,
    Nat.testBit_two_pow]
  have h255 : Nat.testBit 255 j = decide (j < 8) := Nat.testBit_two_pow_sub_one 8 j
  rw [h255]
  by_cases hj : j < 8
  · by_cases hkj : k = j <;> simp [hj, hkj]
  · have hb : b.val.testBit j = false :=
      Nat.testBit_lt_two_pow (Nat.lt_of_lt_of_le b.isLt
        (Nat.pow_le_pow_right (n := 2) (by decide) (Nat.le_of_not_lt hj)))
    simp [hb]

theorem bit_at_set (l : List uint8_t) (i : Nat) (v : uint8_t) (i' j : Nat) :
    bit_at (l.set i v) i' j =
      if i = i' ∧ i < l.length then v.val.testBit j else bit_at l i' j := by
  unfold bit_at
  by_cases h : i = i'
  · subst h
    by_cases hl : i < l.length
    · simp [List.getD_eq_getElem?_getD, hl]
    · have : l.set i v = l := List.set_eq_of_length_le (Nat.le_of_not_lt hl)
      simp [this, hl]
  · simp [List.getD_eq_getElem?_getD, List.getElem?_set_ne h, h]

theorem accepted_length (buf : PixelBuffer)
    (hc : config_accepted buf.width buf.height = true) :
    buf.width = 128 ∧
    ((buf.height = 32 ∧ buf.bytes.length = 512) ∨
      (buf.height = 64 ∧ buf.bytes.length = 1024)) := by
  have hb := buf.size_eq
  obtain ⟨hw, hh | hh⟩ := (config_accepted_iff _ _).1 hc
  · refine ⟨hw, Or.inl ⟨hh, ?_⟩⟩
    rw [hw, hh] at hb
    have : (buf.bytes.length : Int) = 512 := by rw [hb]; decide
    exact_mod_cast this
  · refine ⟨hw, Or.inr ⟨hh, ?_⟩⟩
    rw [hw, hh] at hb
    have : (buf.bytes.length : Int) = 1024 := by rw [hb]; decide
    exact_mod_cast this

theorem pixel_in_buffer (buf : PixelBuffer)
    (hc : config_accepted buf.width buf.height = true) (x y : Int)
    (hx0 : 0 ≤ x) (hx1 : x < buf.width) (hy0 : 0 ≤ y) (hy1 : y < buf.height) :
    (pixel_index buf.width x y).toNat < buf.bytes.length ∧ (pixel_bit y).toNat < 8 := by
  obtain ⟨hw, ⟨hh, hl⟩ | ⟨hh, hl⟩⟩ := accepted_length buf hc <;>
  · rw [hl]
    rw [hw] at hx1 ⊢
    rw [hh] at hy1
    unfold pixel_index pixel_page pixel_bit
    omega

/-- C6: in a buffer of an accepted configuration, for every in-range `(x, y)`,
`set_pixel(x, y, true)` succeeds and leaves bit `y % 8` of byte `(y / 8) * width + x` of
`raw_bytes()` at 1, a following `set_pixel(x, y, false)` succeeds and leaves it at 0, and
every other bit of the buffer is as it was before the two calls. -/
theorem set_pixel_round_trip (buf : PixelBuffer) (x y : Int)
    (hc : config_accepted buf.width buf.height = true)
    (hx0 : 0 ≤ x) (hx1 : x < buf.width) (hy0 : 0 ≤ y) (hy1 : y < buf.height) :
    ∃ b1 b2 : PixelBuffer,
      set_pixel buf x y true = Except.ok b1 ∧
      set_pixel b1 x y false = Except.ok b2 ∧
      (pixel_index buf.width x y).toNat < (raw_bytes buf).length ∧
      (pixel_bit y).toNat < 8 ∧
      (raw_bytes b1).length = (raw_bytes buf).length ∧
      (raw_bytes b2).length = (raw_bytes buf).length ∧
      bit_at (raw_bytes b1) (pixel_index buf.width x y).toNat (pixel_bit y).toNat = true ∧
      bit_at (raw_bytes b2) (pixel_index buf.width x y).toNat (pixel_bit y).toNat = false ∧
      (∀ i j : Nat,
        ¬ (i = (pixel_index buf.width x y).toNat ∧ j = (pixel_bit y).toNat) →
        bit_at (raw_bytes b1) i j = bit_at (raw_bytes buf) i j ∧
        bit_at (raw_bytes b2) i j = bit_at (raw_bytes buf) i j) := by
  obtain ⟨hidx, hbit⟩ := pixel_in_buffer buf hc x y hx0 hx1 hy0 hy1
  have hrange : 0 ≤ x ∧ x < buf.width ∧ 0 ≤ y ∧ y < buf.height := ⟨hx0, hx1, hy0, hy1⟩
  generalize hi : (pixel_index buf.width x y).toNat = idx at hidx ⊢
  generalize hk : (pixel_bit y).toNat = bit at hbit ⊢
  let v1 : uint8_t := set_bit (buf.bytes.getD idx 0) bit
  let b1 : PixelBuffer :=
    { width := buf.width, height := buf.height, bytes := buf.bytes.set idx v1,
      size_eq := by rw [List.length_set]; exact buf.size_eq }
  let v2 : uint8_t := clear_bit (b1.bytes.getD idx 0) bit
  let b2 : PixelBuffer :=
    { width := buf.width, height := buf.height, bytes := b1.bytes.set idx v2,
      size_eq := by rw [List.length_set]; exact b1.size_eq }
  have e1 : set_pixel buf x y true = Except.ok b1 := by
    unfold set_pixel
    rw [if_pos hrange]
    simp only [hi, hk, if_true]
  have e2 : set_pixel b1 x y false = Except.ok b2 := by
    unfold set_pixel
    rw [if_pos hrange]
    simp only [hi, hk]
    rfl
  have hl1 : b1.bytes.length = buf.bytes.length := List.length_set _ _ _
  have hidx1 : idx < b1.bytes.length := by rw [hl1]; exact hidx
  have hv1 : b1.bytes.getD idx 0 = v1 := by
    show (buf.bytes.set idx v1).getD idx 0 = v1
    simp [List.getD_eq_getElem?_getD, hidx]
  have g1 : ∀ i j : Nat, bit_at (raw_bytes b1) i j =
      if idx = i then (bit_at (raw_bytes buf) i j || decide (bit = j))
      else bit_at (raw_bytes buf) i j := by
    intro i j
    show bit_at (buf.bytes.set idx v1) i j = _
    rw [bit_at_set]
    by_cases h : idx = i
    · subst h
      rw [if_pos ⟨rfl, hidx⟩, if_pos rfl]
      exact testBit_set_bit _ _ _ hbit
    · rw [if_neg (fun hh => h hh.1), if_neg h]
      rfl
  have g2 : ∀ i j : Nat, bit_at (raw_bytes b2) i j =
      if idx = i then (bit_at (raw_bytes b1) i j && !decide (bit = j))
      else bit_at (raw_bytes b1) i j := by
    intro i j
    show bit_at (b1.bytes.set idx v2) i j = _
    rw [bit_at_set]
    by_cases h : idx = i
    · subst h
      rw [if_pos ⟨rfl, hidx1⟩, if_pos rfl]
      exact testBit_clear_bit _ _ _
    · rw [if_neg (fun hh => h hh.1), if_neg h]
      rfl
  refine ⟨b1, b2, e1, e2, hidx, hbit, hl1, ?_, ?_, ?_, ?_⟩
  · show (b1.bytes.set idx v2).length = buf.bytes.length
    rw [List.length_set]; exact hl1
  · rw [g1, if_pos rfl]; simp
  · rw [g2, if_pos rfl]; simp
  · intro i j hne
    rw [g2, g1]
    by_cases h : idx = i
    · have hj : bit ≠ j := fun hj => hne ⟨h.symm, hj.symm⟩
      simp [h, hj]
    · simp [h]

/-- Pixel (5, 10) of the blank 128 x 64 buffer: set, then cleared. -/
theorem set_pixel_round_trip_witness :
    config_accepted blank_128x64.width blank_128x64.height = true ∧
    (0 : Int) ≤ 5 ∧ (5 : Int) < blank_128x64.width ∧
    (0 : Int) ≤ 10 ∧ (10 : Int) < blank_128x64.height ∧
    ∃ b1 b2 : PixelBuffer,
      set_pixel blank_128x64 5 10 true = Except.ok b1 ∧
      set_pixel b1 5 10 false = Except.ok b2 ∧
      (pixel_index blank_128x64.width 5 10).toNat < (raw_bytes blank_128x64).length ∧
      (pixel_bit 10).toNat < 8 ∧
      (raw_bytes b1).length = (raw_bytes blank_128x64).length ∧
      (raw_bytes b2).length = (raw_bytes blank_128x64).length ∧
      bit_at (raw_bytes b1) (pixel_index blank_128x64.width 5 10).toNat
        (pixel_bit 10).toNat = true ∧
      bit_at (raw_bytes b2) (pixel_index blank_128x64.width 5 10).toNat
        (pixel_bit 10).toNat = false ∧
      (∀ i j : Nat,
        ¬ (i = (pixel_index blank_128x64.width 5 10).toNat ∧ j = (pixel_bit 10).toNat) →
        bit_at (raw_bytes b1) i j = bit_at (raw_bytes blank_128x64) i j ∧
        bit_at (raw_bytes b2) i j = bit_at (raw_bytes blank_128x64) i j) :=
  ⟨by decide, by decide, by decide, by decide, by decide,
    set_pixel_round_trip blank_128x64 5 10 (by decide) (by decide) (by decide) (by decide)
      (by decide)⟩

/-- C7: for every buffer of an accepted configuration, `Flush` succeeds and emits first,
under the command control byte 0x00, the column-address command 0x21 with the range
`0 .. width - 1` and the page-address command 0x22 with the range `0 .. height / 8 - 1`,
and then, under the data control byte 0x40, exactly the `width * height / 8` bytes of
`raw_bytes()` in their order, so the first data byte is `raw_bytes()[0]`. -/
theorem flush_window_then_data (buf : PixelBuffer)
    (hc : config_accepted buf.width buf.height = true) :
    ∃ cmd data : Transaction,
      Flush buf = Except.ok [cmd, data] ∧
      cmd.control = 0x00 ∧
      cmd.payload = [0x21, 0, (buf.width - 1).toNat, 0x22, 0, (buf.height / 8 - 1).toNat] ∧
      ((buf.width - 1).toNat : Int) = buf.width - 1 ∧
      ((buf.height / 8 - 1).toNat : Int) = row_byteshift buf.height - 1 ∧
      (∀ b ∈ cmd.payload, b < 256) ∧
      data.control = 0x40 ∧
      data.payload = (raw_bytes buf).map Fin.val ∧
      (data.payload.length : Int) = buf.width * buf.height / 8 ∧
      (∀ i : Nat, i < data.payload.length →
        data.payload[i]? = ((raw_bytes buf)[i]?).map Fin.val) ∧
      (∃ b0 : uint8_t, (raw_bytes buf)[0]? = some b0 ∧ data.payload.head? = some b0.val) ∧
      (∀ b ∈ data.payload, b < 256) := by
  have hwin : ∀ w h : Int, w = 128 → (h = 32 ∨ h = 64) →
      (0 : Int) ≤ 0 ∧ 0 ≤ w - 1 ∧ w - 1 < w ∧ (0 : Int) ≤ 0 ∧ 0 ≤ h / 8 - 1 ∧
        h / 8 - 1 < h / 8 := by
    intro w h hw hh
    omega
  obtain ⟨hw, hh⟩ := (config_accepted_iff _ _).1 hc
  obtain ⟨_, hlen⟩ := accepted_length buf hc
  have hne : buf.bytes ≠ [] := by
    intro h0
    rw [h0] at hlen
    simp at hlen
  refine ⟨⟨SSD1306_CONTROLBYTE,
      [SSD1306_COLUMNADDR, (0 : Int).toNat, (buf.width - 1).toNat, SSD1306_PAGEADDR,
        (0 : Int).toNat, (buf.height / 8 - 1).toNat]⟩,
    ⟨SSD1306_DATABYTE, (raw_bytes buf).map Fin.val⟩, ?_, rfl, rfl, ?_, ?_, ?_, rfl, rfl,
    ?_, ?_, ?_, ?_⟩
  · unfold Flush SetWindow
    rw [if_pos (hwin _ _ hw hh)]
    rfl
  · omega
  · unfold row_byteshift; omega
  · intro b hb
    simp only [List.mem_cons, List.mem_singleton, List.not_mem_nil, or_false] at hb
    have h21 : SSD1306_COLUMNADDR = 33 := rfl
    have h22 : SSD1306_PAGEADDR = 34 := rfl
    have h0 : (0 : Int).toNat = 0 := rfl
    rcases hh with hh | hh <;> omega
  · show (((raw_bytes buf).map Fin.val).length : Int) = _
    rw [List.length_map]
    show (buf.bytes.length : Int) = _
    rcases hlen with ⟨h1, h2⟩ | ⟨h1, h2⟩ <;> rw [h2, hw, h1] <;> decide
  · intro i _
    show ((raw_bytes buf).map Fin.val)[i]? = _
    rw [List.getElem?_map]
  · obtain ⟨b0, rest, hcons⟩ := List.exists_cons_of_ne_nil hne
    refine ⟨b0, ?_, ?_⟩
    · show buf.bytes[0]? = some b0
      rw [hcons]; simp
    · show (buf.bytes.map Fin.val).head? = some b0.val
      rw [hcons]; rfl
  · intro b hb
    obtain ⟨a, _, rfl⟩ := List.mem_map.1 hb
    exact a.isLt

/-- The blank 128 x 64 buffer: window `0 .. 127`, pages `0 .. 7`, then 1024 data bytes. -/
theorem flush_window_then_data_witness :
    config_accepted blank_128x64.width blank_128x64.height = true ∧
    ∃ cmd data : Transaction,
      Flush blank_128x64 = Except.ok [cmd, data] ∧
      cmd.control = 0x00 ∧
      cmd.payload = [0x21, 0, (blank_128x64.width - 1).toNat, 0x22, 0,
        (blank_128x64.height / 8 - 1).toNat] ∧
      ((blank_128x64.width - 1).toNat : Int) = blank_128x64.width - 1 ∧
      ((blank_128x64.height / 8 - 1).toNat : Int) = row_byteshift blank_128x64.height - 1 ∧
      (∀ b ∈ cmd.payload, b < 256) ∧
      data.control = 0x40 ∧
      data.payload = (raw_bytes blank_128x64).map Fin.val ∧
      (data.payload.length : Int) = blank_128x64.width * blank_128x64.height / 8 ∧
      (∀ i : Nat, i < data.payload.length →
        data.payload[i]? = ((raw_bytes blank_128x64)[i]?).map Fin.val) ∧
      (∃ b0 : uint8_t, (raw_bytes blank_128x64)[0]? = some b0 ∧
        data.payload.head? = some b0.val) ∧
      (∀ b ∈ data.payload, b < 256) :=
  ⟨by decide, flush_window_then_data blank_128x64 (by decide)⟩

end SSD1306
